import Mathlib

/-!
Verification of the failover decision core of the `cc` cluster controller
(`state/state_model.go`), over a shallow embedding.

The repository source under verification contains the failover domain rules:
the four node-lifecycle states, the transition table registered in `init`,
the eligibility guards (`SlaveAutoFailoverConstraint`,
`MasterAutoFailoverConstraint`, and the anonymous not-already-demoted
constraint of transition d2), and the two effect handlers
(`SlaveFailoverHandler`, `MasterFailoverHandler`).

The generic FSM engine (package `fsm`: pattern matching, guard filtering,
priority resolution), the `Input` tuple type, and the `ClusterState` /
`NodeState` query surface live in sibling packages that are not part of the
source under verification; they are modelled from the spec where so marked.
Identifiers and addresses are strings in Go; only equality on them is used,
so they are modelled as `Nat`. Key ranges are modelled as a list, since only
`len(node.Ranges)` is consulted.
-/

namespace CC

/-- Health classification of the `Input` tuple: `FAIL` or `FINE`. -/
inductive Health where
  | FAIL
  | FINE
deriving DecidableEq

/-- Role field of the `Input` tuple: `MASTER` (written `M` in the table) or
`SLAVE` (written `S`). -/
inductive Role where
  | MASTER
  | SLAVE
deriving DecidableEq

/-- Command field of the `Input` tuple. -/
inductive Cmd where
  | NONE
  | CMD_FAILOVER_BEGIN_SIGNAL
  | CMD_FAILOVER_END_SIGNAL
deriving DecidableEq

/-- The four node-lifecycle states of `state_model.go` (`StateRunning`,
`StateWaitFailoverBegin`, `StateWaitFailoverEnd`, `StateOffline`). In Go
these are string constants; only their identity is used. -/
inductive StateName where
  | RUNNING
  | WAIT_FAILOVER_BEGIN
  | WAIT_FAILOVER_END
  | OFFLINE
deriving DecidableEq

/-- Source constant `StateRunning = "RUNNING"`. -/
abbrev StateRunning : StateName := StateName.RUNNING

/-- Source constant `StateWaitFailoverBegin = "WAIT_FAILOVER_BEGIN"`. -/
abbrev StateWaitFailoverBegin : StateName := StateName.WAIT_FAILOVER_BEGIN

/-- Source constant `StateWaitFailoverEnd = "WAIT_FAILOVER_END"`. -/
abbrev StateWaitFailoverEnd : StateName := StateName.WAIT_FAILOVER_END

/-- Source constant `StateOffline = "OFFLINE"`. -/
abbrev StateOffline : StateName := StateName.OFFLINE

/-- Modelled from the spec: the node descriptor (glossary: one instance in
the cluster, with role, region, address, owned key-range set, failed flag).
The guards and handlers of `state_model.go` read `Id`, `Region`, `Fail`,
`Ranges` and `Addr`; the defining Go struct is in the `meta` package, not in
the source under verification. -/
structure Node where
  Id : Nat
  Region : Nat
  Fail : Bool
  Ranges : List Nat
  Addr : Nat

/-- Modelled from the spec: `NodeState`, the per-node current-state holder
(spec section 3). Its Go definition is not in the source under verification;
the guards call `ns.Id()`, `ns.node`, and `nodeState.CurrentState()`. -/
structure NodeState where
  node : Node
  currentState : StateName

/-- Go method `ns.Id()`: the identity of the underlying node. -/
def NodeState.Id (ns : NodeState) : Nat := ns.node.Id

/-- Go method `ns.CurrentState()`. -/
def NodeState.CurrentState (ns : NodeState) : StateName := ns.currentState

/-- Go method `ns.Addr()`: the address of the underlying node. -/
def NodeState.Addr (ns : NodeState) : Nat := ns.node.Addr

/-- Modelled from the spec: a replica set (glossary: one master and its
slaves replicating the same partition), reduced to its member nodes, which
is all `RegionNodes` consults. -/
structure ReplicaSet where
  nodes : List Node

/-- Modelled from the spec: `rs.RegionNodes(region)` — list the members of
the replica set that sit in the given region (spec section 6: "list region
siblings within a replica set"). -/
def ReplicaSet.RegionNodes (rs : ReplicaSet) (region : Nat) : List Node :=
  rs.nodes.filter fun n => n.Region == region

/-- Modelled from the spec: `ClusterState`, the aggregate of all `NodeState`
plus topology and the global auto-failover flag (spec section 3). The Go
`meta.AutoFailover()` global toggle is carried here as the field
`autoFailover`, matching the spec's placement of the flag in the aggregate. -/
structure ClusterState where
  replicaSets : List ReplicaSet
  nodeStates : List NodeState
  autoFailover : Bool

/-- Modelled from the spec: `cs.FindReplicaSetByNode(id)` — locate the
replica set containing the node with the given id (spec section 6); `nil`
when none contains it. -/
def ClusterState.FindReplicaSetByNode (cs : ClusterState) (id : Nat) :
    Option ReplicaSet :=
  cs.replicaSets.find? fun rs => rs.nodes.any fun n => n.Id == id

/-- Modelled from the spec: `cs.FindNodeState(id)` — locate a node's
current-state holder by id (spec section 6). -/
def ClusterState.FindNodeState (cs : ClusterState) (id : Nat) :
    Option NodeState :=
  cs.nodeStates.find? fun ns => ns.node.Id == id

/-- The current state registered for a node id, `none` when the id is
unknown. In Go the guard dereferences `cs.FindNodeState(node.Id)` without a
nil check; the model treats an absent entry as not being in any state, which
makes the guard's `!= RUNNING` test succeed (guard rejects). -/
def ClusterState.currentStateOf (cs : ClusterState) (id : Nat) :
    Option StateName :=
  (cs.FindNodeState id).map NodeState.currentState

/-- Modelled from the spec: `cs.AllNodeStates()` — every per-node state
holder known to the cluster, used by `SlaveFailoverHandler` to enumerate
node addresses. -/
def ClusterState.AllNodeStates (cs : ClusterState) : List NodeState :=
  cs.nodeStates

/-- Modelled from the spec: the `Input` tuple (spec section 3) — the real,
fully specified observation of a node at decision time; never contains
wildcards. Field order follows the positional Go literals
`Input{Read, Write, Health, Role, Command}`. -/
structure Input where
  readEnabled : Bool
  writeEnabled : Bool
  health : Health
  role : Role
  command : Cmd

/-- Modelled from the spec: one field of a transition pattern — either the
explicit don't-care sentinel `ANY` or a concrete value (spec sections 3
and 9). -/
inductive PatField (α : Type) where
  | ANY
  | val (a : α)

/-- A pattern field matches a concrete field value when it is `ANY` or
equals the value (spec section 4.1 step 2). -/
def PatField.matches [DecidableEq α] : PatField α → α → Bool
  | .ANY, _ => true
  | .val a, b => decide (a = b)

/-- Modelled from the spec: a transition pattern — same shape as `Input`
but each field may be `ANY` (spec section 3). In the Go `fsm` package the
pattern reuses the `Input` struct with `ANY` sentinel values. -/
structure Pattern where
  readEnabled : PatField Bool
  writeEnabled : PatField Bool
  health : PatField Health
  role : PatField Role
  command : PatField Cmd

/-- Source constant `T` of the `fsm` package: pattern field requiring the
flag to be true. -/
abbrev T : PatField Bool := PatField.val true

/-- Source constant `F`: pattern field requiring the flag to be false. -/
abbrev F : PatField Bool := PatField.val false

/-- Source constant `FAIL` as a pattern field. -/
abbrev FAIL : PatField Health := PatField.val Health.FAIL

/-- Source constant `FINE` as a pattern field. -/
abbrev FINE : PatField Health := PatField.val Health.FINE

/-- Source constant `M`: pattern field requiring role MASTER. -/
abbrev M : PatField Role := PatField.val Role.MASTER

/-- Source constant `S`: pattern field requiring role SLAVE. -/
abbrev S : PatField Role := PatField.val Role.SLAVE

/-- A pattern matches an input when every field is `ANY` or equal to the
input's field (spec section 4.1 step 2). -/
def Pattern.matchesInput (p : Pattern) (i : Input) : Bool :=
  p.readEnabled.matches i.readEnabled &&
  p.writeEnabled.matches i.writeEnabled &&
  p.health.matches i.health &&
  p.role.matches i.role &&
  p.command.matches i.command

/-- Source type `StateContext`: the ephemeral per-decision context handed to
guards and effects (`state_model.go`, end of file). -/
structure StateContext where
  input : Input
  clusterState : ClusterState
  nodeState : NodeState

/-- Tag naming which of the two registered effect handlers a transition's
`Apply` field holds; the handlers themselves are modelled below as pure
functions over an explicit effect world. -/
inductive Effect where
  | slaveFailover
  | masterFailover
deriving DecidableEq

/-- Source type `fsm.Transition`: From, To, pattern (the Go field is named
`Input`), priority (higher wins), optional guard, optional effect. -/
structure Transition where
  From : StateName
  To : StateName
  Input : Pattern
  Priority : Nat
  Constraint : Option (StateContext → Bool)
  Apply : Option Effect

/-- Source `SlaveAutoFailoverConstraint` (`state_model.go` lines 63-89):
require a replica set, at least 2 nodes in the node's region within it, and
every other region sibling healthy (not failed, currently RUNNING). -/
def SlaveAutoFailoverConstraint (ctx : StateContext) : Bool :=
  let cs := ctx.clusterState
  let ns := ctx.nodeState
  match cs.FindReplicaSetByNode ns.Id with
  | none => false
  | some rs =>
    let localRegionNodes := rs.RegionNodes ns.node.Region
    if localRegionNodes.length < 2 then false
    else localRegionNodes.all fun node =>
      node.Id == ns.Id ||
        (!node.Fail && (cs.currentStateOf node.Id == some StateRunning))

/-- Source `MasterAutoFailoverConstraint` (`state_model.go` lines 91-122):
reject outright when the global auto-failover flag is off and the input is
not the manual begin signal; otherwise the same topology checks as the
slave guard. -/
def MasterAutoFailoverConstraint (ctx : StateContext) : Bool :=
  let cs := ctx.clusterState
  let ns := ctx.nodeState
  if !cs.autoFailover && ctx.input.command != Cmd.CMD_FAILOVER_BEGIN_SIGNAL
  then false
  else
    match cs.FindReplicaSetByNode ns.Id with
    | none => false
    | some rs =>
      let localRegionNodes := rs.RegionNodes ns.node.Region
      if localRegionNodes.length < 2 then false
      else localRegionNodes.all fun node =>
        node.Id == ns.Id ||
          (!node.Fail && (cs.currentStateOf node.Id == some StateRunning))

/-- The anonymous constraint of transition d2 (`state_model.go` lines
307-318), called not-already-demoted in the spec: reject exactly when the
node is marked failed and owns no key ranges. -/
def NotAlreadyDemotedConstraint (ctx : StateContext) : Bool :=
  let ns := ctx.nodeState
  if ns.node.Fail && ns.node.Ranges.length == 0 then false
  else true

/-- The address-ban loop of `SlaveFailoverHandler` (`state_model.go` lines
129-135): try `redis.DisableRead(addr, slaveId)` against each node state's
address in order, stopping after the first call that returns no error. The
network call is modelled by the oracle `ban addr slaveId = true` iff the
call succeeds; the returned list is the sequence of addresses attempted. -/
def disableReadLoop (ban : Nat → Nat → Bool) (slaveId : Nat) :
    List NodeState → List Nat
  | [] => []
  | n :: rest =>
    if ban n.Addr slaveId then [n.Addr]
    else n.Addr :: disableReadLoop ban slaveId rest

/-- Source `SlaveFailoverHandler` (`state_model.go` lines 124-136): ban
reads of the failing slave against the cluster's node addresses, first
success wins; a failure of every attempt is only logged. The handler's Go
type returns nothing, so no outcome can propagate; the model returns the
attempted addresses for specification purposes. -/
def SlaveFailoverHandler (ban : Nat → Nat → Bool) (ctx : StateContext) :
    List Nat :=
  disableReadLoop ban ctx.nodeState.Id ctx.clusterState.AllNodeStates

/-- The asynchronous follow-up dispatched by `MasterFailoverHandler`; both
branches use `go` in the source, so neither runs inline in the firing. -/
inductive MasterAction where
  | asyncAdvanceFSM (nodeId : Nat) (command : Cmd)
  | asyncRunFailoverTask (failingId candidateId : Nat)
deriving DecidableEq

/-- Source `MasterFailoverHandler` (`state_model.go` lines 138-150): ask the
cluster for the replication-offset-maximal sibling of the failing master
(`cs.MaxReploffSlibing(ns.Id(), true)`, modelled from the spec as the oracle
argument, `none` for the error case). With no candidate, asynchronously
re-drive the node's FSM with the failover-end signal; otherwise
asynchronously launch the failover task with the failing node's id and the
candidate's id. The task's result is not consumed: the action carries no
result channel, matching the fire-and-forget `go` statement. -/
def MasterFailoverHandler (maxReploffSlibing : Option Nat)
    (ctx : StateContext) : MasterAction :=
  match maxReploffSlibing with
  | none =>
    MasterAction.asyncAdvanceFSM ctx.nodeState.Id Cmd.CMD_FAILOVER_END_SIGNAL
  | some masterId =>
    MasterAction.asyncRunFailoverTask ctx.nodeState.Id masterId

/-- Transition a0 (`state_model.go` lines 165-173): RUNNING, read and write
both banned, go OFFLINE. -/
def a0 : Transition :=
  ⟨StateRunning, StateOffline, ⟨F, F, .ANY, .ANY, .ANY⟩, 0, none, none⟩

/-- Transition a1 (lines 175-183): RUNNING, failed but reads still enabled,
go WAIT_FAILOVER_BEGIN. -/
def a1 : Transition :=
  ⟨StateRunning, StateWaitFailoverBegin, ⟨T, .ANY, FAIL, .ANY, .ANY⟩, 0,
    none, none⟩

/-- Transition a2 (lines 185-193): RUNNING, failed but writes still enabled,
go WAIT_FAILOVER_BEGIN. -/
def a2 : Transition :=
  ⟨StateRunning, StateWaitFailoverBegin, ⟨.ANY, T, FAIL, .ANY, .ANY⟩, 0,
    none, none⟩

/-- Transition a3 (lines 195-203): RUNNING failed slave, slave-eligible
guard, ban-read effect, go WAIT_FAILOVER_END at priority 1. -/
def a3 : Transition :=
  ⟨StateRunning, StateWaitFailoverEnd, ⟨T, .ANY, FAIL, S, .ANY⟩, 1,
    some SlaveAutoFailoverConstraint, some Effect.slaveFailover⟩

/-- Transition a4 (lines 205-213): RUNNING failed master, master-eligible
guard, promote effect, go WAIT_FAILOVER_END at priority 1. -/
def a4 : Transition :=
  ⟨StateRunning, StateWaitFailoverEnd, ⟨T, T, FAIL, M, .ANY⟩, 1,
    some MasterAutoFailoverConstraint, some Effect.masterFailover⟩

/-- Transition b0 (lines 217-225): WAIT_FAILOVER_BEGIN, node recovered, back
to RUNNING. -/
def b0 : Transition :=
  ⟨StateWaitFailoverBegin, StateRunning, ⟨.ANY, .ANY, FINE, .ANY, .ANY⟩, 0,
    none, none⟩

/-- Transition b1 (lines 227-235): WAIT_FAILOVER_BEGIN failed master,
master-eligible guard, promote effect, go WAIT_FAILOVER_END. -/
def b1 : Transition :=
  ⟨StateWaitFailoverBegin, StateWaitFailoverEnd,
    ⟨.ANY, .ANY, FAIL, M, .ANY⟩, 0,
    some MasterAutoFailoverConstraint, some Effect.masterFailover⟩

/-- Transition b2 (lines 237-245): WAIT_FAILOVER_BEGIN failed slave,
slave-eligible guard, ban-read effect, go WAIT_FAILOVER_END. -/
def b2 : Transition :=
  ⟨StateWaitFailoverBegin, StateWaitFailoverEnd,
    ⟨.ANY, .ANY, FAIL, S, .ANY⟩, 0,
    some SlaveAutoFailoverConstraint, some Effect.slaveFailover⟩

/-- Transition b3 (lines 247-255): WAIT_FAILOVER_BEGIN failed slave already
fully banned, go OFFLINE at priority 1. -/
def b3 : Transition :=
  ⟨StateWaitFailoverBegin, StateOffline, ⟨F, F, FAIL, S, .ANY⟩, 1,
    none, none⟩

/-- Transition c0 (lines 259-267): WAIT_FAILOVER_END, failover-end signal,
go OFFLINE. -/
def c0 : Transition :=
  ⟨StateWaitFailoverEnd, StateOffline,
    ⟨.ANY, .ANY, .ANY, .ANY, .val Cmd.CMD_FAILOVER_END_SIGNAL⟩, 0,
    none, none⟩

/-- Transition c1 (lines 269-277): WAIT_FAILOVER_END failed slave already
fully banned, go OFFLINE at priority 1. -/
def c1 : Transition :=
  ⟨StateWaitFailoverEnd, StateOffline, ⟨F, F, FAIL, S, .ANY⟩, 1,
    none, none⟩

/-- Transition d0 (lines 281-289): OFFLINE, reads re-enabled, back to
RUNNING. -/
def d0 : Transition :=
  ⟨StateOffline, StateRunning, ⟨T, .ANY, .ANY, .ANY, .ANY⟩, 0, none, none⟩

/-- Transition d1 (lines 291-299): OFFLINE, writes re-enabled, back to
RUNNING. -/
def d1 : Transition :=
  ⟨StateOffline, StateRunning, ⟨.ANY, T, .ANY, .ANY, .ANY⟩, 0, none, none⟩

/-- Transition d2 (lines 301-320): OFFLINE failed master, re-enter
WAIT_FAILOVER_BEGIN unless already demoted. -/
def d2 : Transition :=
  ⟨StateOffline, StateWaitFailoverBegin, ⟨F, F, FAIL, M, .ANY⟩, 0,
    some NotAlreadyDemotedConstraint, none⟩

/-- Source `RedisNodeStateModel` after `init` has run: the fourteen
transitions in registration order. -/
def RedisNodeStateModel : List Transition :=
  [a0, a1, a2, a3, a4, b0, b1, b2, b3, c0, c1, d0, d1, d2]

/-- Modelled from the spec: step 5 of the engine's `Advance` algorithm —
among the surviving transitions pick the one with the highest priority, the
first registered winning ties (spec section 4.1, section 9). -/
def pickHighest : List Transition → Option Transition
  | [] => none
  | t :: ts =>
    match pickHighest ts with
    | none => some t
    | some best => if best.Priority > t.Priority then some best else some t

/-- Modelled from the spec: steps 1-5 of `Advance` (spec section 4.1) —
keep the transitions leaving the current state whose pattern matches the
input and whose guard (absent counts as pass) accepts the context, then
resolve by priority. -/
def selectTransition (ts : List Transition) (cur : StateName)
    (ctx : StateContext) : Option Transition :=
  pickHighest (ts.filter fun t =>
    decide (t.From = cur) && t.Input.matchesInput ctx.input &&
      (match t.Constraint with
       | none => true
       | some g => g ctx))

/-- Modelled from the spec: the state after `Advance` — the selected
transition's target, or the unchanged current state when nothing fired
(spec section 4.1 steps 4 and 6). -/
def advanceState (ts : List Transition) (cur : StateName)
    (ctx : StateContext) : StateName :=
  match selectTransition ts cur ctx with
  | none => cur
  | some t => t.To

/-- Modelled from the spec: the effect the firing runs, if any (spec
section 4.1 step 6). -/
def firedEffect (ts : List Transition) (cur : StateName)
    (ctx : StateContext) : Option Effect :=
  match selectTransition ts cur ctx with
  | none => none
  | some t => t.Apply

/-- Modelled from the spec: `Advance` with the slave effect's network world
made explicit — the new state together with the addresses the ban-read
effect attempted (empty when no effect or the master effect fired; the
master effect's action is dispatched asynchronously and returns nothing to
the firing). -/
def advanceWithBanWorld (ban : Nat → Nat → Bool) (ts : List Transition)
    (cur : StateName) (ctx : StateContext) : StateName × List Nat :=
  match selectTransition ts cur ctx with
  | none => (cur, [])
  | some t =>
    (t.To,
      match t.Apply with
      | some Effect.slaveFailover => SlaveFailoverHandler ban ctx
      | _ => [])

/-! Concrete fixtures used to instantiate the theorems below. -/

/-- A failed master owning one key range, in region 10. -/
def masterNode : Node := ⟨1, 10, true, [0], 100⟩

/-- A healthy slave in region 10, sibling of `masterNode`. -/
def slaveNode : Node := ⟨2, 10, false, [], 101⟩

/-- The replica set holding `masterNode` and `slaveNode`. -/
def rsMaster : ReplicaSet := ⟨[masterNode, slaveNode]⟩

/-- A cluster around `rsMaster` with both members registered RUNNING and the
global auto-failover flag disabled. -/
def csMaster : ClusterState :=
  ⟨[rsMaster], [⟨slaveNode, StateRunning⟩, ⟨masterNode, StateRunning⟩], false⟩

/-- The state holder of `masterNode`, currently RUNNING. -/
def nsMaster : NodeState := ⟨masterNode, StateRunning⟩

/-- The state holder of `slaveNode`, currently RUNNING. -/
def nsSlave : NodeState := ⟨slaveNode, StateRunning⟩

/-- Decision context: failed unbanned master, no command, flag disabled. -/
def ctxAutoNone : StateContext :=
  ⟨⟨true, true, Health.FAIL, Role.MASTER, Cmd.NONE⟩, csMaster, nsMaster⟩

/-- Decision context: same observation but carrying the manual
FAILOVER_BEGIN_SIGNAL. -/
def ctxManualBegin : StateContext :=
  ⟨⟨true, true, Health.FAIL, Role.MASTER, Cmd.CMD_FAILOVER_BEGIN_SIGNAL⟩,
    csMaster, nsMaster⟩

/-- An empty cluster: no replica sets, no node states, flag enabled. -/
def csEmpty : ClusterState := ⟨[], [], true⟩

/-- Decision context over the empty cluster (no replica set locatable). -/
def ctxNoRs : StateContext :=
  ⟨⟨true, true, Health.FAIL, Role.MASTER, Cmd.NONE⟩, csEmpty, nsMaster⟩

/-- A previously failed-over master: failed flag set, zero key ranges. -/
def demotedNode : Node := ⟨5, 10, true, [], 104⟩

/-- Decision context of the demoted master sitting in OFFLINE. -/
def ctxDemoted : StateContext :=
  ⟨⟨false, false, Health.FAIL, Role.MASTER, Cmd.NONE⟩, csEmpty,
    ⟨demotedNode, StateOffline⟩⟩

/-- A failed slave in region 20. -/
def failedSlave : Node := ⟨3, 20, true, [], 102⟩

/-- A healthy region sibling of `failedSlave`. -/
def healthySib : Node := ⟨4, 20, false, [], 103⟩

/-- The replica set holding `failedSlave` and `healthySib`. -/
def rsSlavePair : ReplicaSet := ⟨[failedSlave, healthySib]⟩

/-- Node-state registry putting `healthySib` in RUNNING. -/
def nssSlavePair : List NodeState := [⟨healthySib, StateRunning⟩]

/-- The state holder of `failedSlave`, currently RUNNING. -/
def nsFailedSlave : NodeState := ⟨failedSlave, StateRunning⟩

/-- A ban oracle that succeeds exactly at address 101. -/
def banSecond : Nat → Nat → Bool := fun addr _ => addr == 101

/-- A ban oracle that fails at every address. -/
def banNever : Nat → Nat → Bool := fun _ _ => false

/-- The master guard is the auto-failover gate in front of exactly the
slave guard's topology checks; the two bodies are syntactically identical
in the source. -/
theorem master_guard_eq_gate_slave (ctx : StateContext) :
    MasterAutoFailoverConstraint ctx =
      if !ctx.clusterState.autoFailover &&
          ctx.input.command != Cmd.CMD_FAILOVER_BEGIN_SIGNAL then false
      else SlaveAutoFailoverConstraint ctx := rfl

/-- C1 (counterexample): from RUNNING with Input (T,T,FAIL,MASTER,NONE) and
the auto-failover flag disabled, the node does NOT stay in RUNNING — the
unguarded priority-0 transitions a1/a2 match even though the master-eligible
guard rejects a4, refuting the claim at a concrete cluster. -/
theorem scenario_c_stays_running_refuted :
    advanceState RedisNodeStateModel StateRunning ctxAutoNone ≠ StateRunning := by
  decide

/-- C1 (amended): from RUNNING with Input (T,T,FAIL,MASTER,NONE) and the
auto-failover flag disabled, the master-eligible guard rejects, but the
unguarded transitions a1/a2 (RUNNING→WAIT_FAILOVER_BEGIN) match, so Advance
moves the node to WAIT_FAILOVER_BEGIN with no effect invoked. -/
theorem scenario_c_moves_to_wait_failover_begin (rss : List ReplicaSet)
    (nss : List NodeState) (ns : NodeState) :
    MasterAutoFailoverConstraint
        ⟨⟨true, true, Health.FAIL, Role.MASTER, Cmd.NONE⟩, ⟨rss, nss, false⟩, ns⟩
      = false ∧
    advanceState RedisNodeStateModel StateRunning
        ⟨⟨true, true, Health.FAIL, Role.MASTER, Cmd.NONE⟩, ⟨rss, nss, false⟩, ns⟩
      = StateWaitFailoverBegin ∧
    firedEffect RedisNodeStateModel StateRunning
        ⟨⟨true, true, Health.FAIL, Role.MASTER, Cmd.NONE⟩, ⟨rss, nss, false⟩, ns⟩
      = none :=
  ⟨rfl, rfl, rfl⟩

/-- C2: the master-eligible guard returns false whenever the cluster-wide
auto-failover flag is disabled and the Input's command is not
FAILOVER_BEGIN_SIGNAL; when the command is FAILOVER_BEGIN_SIGNAL the flag's
value is irrelevant to the guard; and from RUNNING with Input
(T,T,FAIL,MASTER,FAILOVER_BEGIN_SIGNAL) and an otherwise-eligible topology
(guard passing) the node moves to WAIT_FAILOVER_END with the
promote-replica effect invoked. -/
theorem master_guard_disabled_flag_and_manual_override :
    (∀ ctx : StateContext, ctx.clusterState.autoFailover = false →
      ctx.input.command ≠ Cmd.CMD_FAILOVER_BEGIN_SIGNAL →
      MasterAutoFailoverConstraint ctx = false) ∧
    (∀ (rss : List ReplicaSet) (nss : List NodeState) (ns : NodeState)
        (i : Input), i.command = Cmd.CMD_FAILOVER_BEGIN_SIGNAL →
      MasterAutoFailoverConstraint ⟨i, ⟨rss, nss, false⟩, ns⟩ =
        MasterAutoFailoverConstraint ⟨i, ⟨rss, nss, true⟩, ns⟩) ∧
    (∀ ctx : StateContext,
      ctx.input = ⟨true, true, Health.FAIL, Role.MASTER,
        Cmd.CMD_FAILOVER_BEGIN_SIGNAL⟩ →
      MasterAutoFailoverConstraint ctx = true →
      advanceState RedisNodeStateModel StateRunning ctx = StateWaitFailoverEnd ∧
      firedEffect RedisNodeStateModel StateRunning ctx =
        some Effect.masterFailover) := by
  refine ⟨?_, ?_, ?_⟩
  · intro ctx h1 h2
    simp [MasterAutoFailoverConstraint, h1, h2]
  · intro rss nss ns i h
    obtain ⟨r, w, hh, ro, c⟩ := i
    subst h
    rfl
  · intro ctx hi hg
    obtain ⟨i, cs, ns⟩ := ctx
    simp only [] at hi
    subst hi
    constructor <;>
      simp [advanceState, firedEffect, selectTransition, pickHighest,
        RedisNodeStateModel, List.filter, a0, a1, a2, a3, a4, b0, b1, b2, b3,
        c0, c1, d0, d1, d2, Pattern.matchesInput, PatField.matches, hg]

/-- C2 witness: the three conjuncts instantiated on the concrete fixture
cluster — flag disabled with no signal rejects; with the manual signal the
flag is irrelevant; and the manual-override firing reaches
WAIT_FAILOVER_END with the master effect. -/
theorem master_guard_disabled_flag_and_manual_override_witness :
    MasterAutoFailoverConstraint ctxAutoNone = false ∧
    MasterAutoFailoverConstraint
        ⟨⟨true, true, Health.FAIL, Role.MASTER, Cmd.CMD_FAILOVER_BEGIN_SIGNAL⟩,
          ⟨[rsMaster], [nsSlave, nsMaster], false⟩, nsMaster⟩ =
      MasterAutoFailoverConstraint
        ⟨⟨true, true, Health.FAIL, Role.MASTER, Cmd.CMD_FAILOVER_BEGIN_SIGNAL⟩,
          ⟨[rsMaster], [nsSlave, nsMaster], true⟩, nsMaster⟩ ∧
    (advanceState RedisNodeStateModel StateRunning ctxManualBegin =
        StateWaitFailoverEnd ∧
      firedEffect RedisNodeStateModel StateRunning ctxManualBegin =
        some Effect.masterFailover) :=
  ⟨master_guard_disabled_flag_and_manual_override.1 ctxAutoNone rfl (by decide),
   master_guard_disabled_flag_and_manual_override.2.1 [rsMaster]
     [nsSlave, nsMaster] nsMaster
     ⟨true, true, Health.FAIL, Role.MASTER, Cmd.CMD_FAILOVER_BEGIN_SIGNAL⟩ rfl,
   master_guard_disabled_flag_and_manual_override.2.2 ctxManualBegin rfl
     (by decide)⟩

/-- C3: both eligibility guards return false when no replica set contains
the node, when fewer than 2 nodes (the node included) share its region
within the replica set, or when some other region sibling is failed or not
currently RUNNING. -/
theorem eligibility_guards_topology_conservative (ctx : StateContext)
    (h : ctx.clusterState.FindReplicaSetByNode ctx.nodeState.Id = none ∨
      ∃ rs, ctx.clusterState.FindReplicaSetByNode ctx.nodeState.Id = some rs ∧
        ((rs.RegionNodes ctx.nodeState.node.Region).length < 2 ∨
          ∃ n ∈ rs.RegionNodes ctx.nodeState.node.Region,
            n.Id ≠ ctx.nodeState.Id ∧
              (n.Fail = true ∨
                ctx.clusterState.currentStateOf n.Id ≠ some StateRunning))) :
    SlaveAutoFailoverConstraint ctx = false ∧
    MasterAutoFailoverConstraint ctx = false := by
  have hs : SlaveAutoFailoverConstraint ctx = false := by
    rcases h with h | ⟨rs, hrs, h2⟩
    · simp only [SlaveAutoFailoverConstraint]
      rw [h]
    · simp only [SlaveAutoFailoverConstraint]
      rw [hrs]
      rcases h2 with hlen | ⟨n, hmem, hne, hbad⟩
      · simp [hlen]
      · by_cases hlen : (rs.RegionNodes ctx.nodeState.node.Region).length < 2
        · simp [hlen]
        · simp only [hlen, if_false]
          rw [List.all_eq_false]
          exact ⟨n, hmem, by rcases hbad with hb | hb <;> simp [hne, hb]⟩
  refine ⟨hs, ?_⟩
  rw [master_guard_eq_gate_slave, hs]
  simp

/-- C3 witness: over the empty cluster no replica set is locatable, and both
guards reject the fixture master. -/
theorem eligibility_guards_topology_conservative_witness :
    SlaveAutoFailoverConstraint ctxNoRs = false ∧
    MasterAutoFailoverConstraint ctxNoRs = false :=
  eligibility_guards_topology_conservative ctxNoRs (Or.inl rfl)

/-- C4: the not-already-demoted guard of transition d2 returns false exactly
when the node's failed flag is set and it owns zero key ranges; and from
OFFLINE with Input (F,F,FAIL,MASTER,any command) such a node never moves to
WAIT_FAILOVER_BEGIN — no transition fires at all. -/
theorem not_already_demoted_iff_and_no_retrigger :
    (∀ ctx : StateContext, NotAlreadyDemotedConstraint ctx = false ↔
      (ctx.nodeState.node.Fail = true ∧
        ctx.nodeState.node.Ranges.length = 0)) ∧
    (∀ (c : Cmd) (cs : ClusterState) (idv reg addr : Nat) (st : StateName),
      advanceState RedisNodeStateModel StateOffline
          ⟨⟨false, false, Health.FAIL, Role.MASTER, c⟩, cs,
            ⟨⟨idv, reg, true, [], addr⟩, st⟩⟩ = StateOffline ∧
      firedEffect RedisNodeStateModel StateOffline
          ⟨⟨false, false, Health.FAIL, Role.MASTER, c⟩, cs,
            ⟨⟨idv, reg, true, [], addr⟩, st⟩⟩ = none) := by
  constructor
  · intro ctx
    unfold NotAlreadyDemotedConstraint
    by_cases hc :
        (ctx.nodeState.node.Fail && ctx.nodeState.node.Ranges.length == 0) = true
    · simp only [hc, if_true]
      simp only [Bool.and_eq_true, beq_iff_eq] at hc
      simp [hc]
    · simp only [hc, if_false]
      simp only [Bool.and_eq_true, beq_iff_eq, not_and] at hc
      constructor
      · intro h
        exact absurd h (by simp)
      · intro ⟨hf, hr⟩
        exact absurd hr (hc hf)
  · intro c cs idv reg addr st
    exact ⟨rfl, rfl⟩

/-- C4 witness: the fixture demoted master (failed, zero ranges) is rejected
by the guard, and in OFFLINE with reads and writes banned it stays
OFFLINE. -/
theorem not_already_demoted_iff_and_no_retrigger_witness :
    NotAlreadyDemotedConstraint ctxDemoted = false ∧
    advanceState RedisNodeStateModel StateOffline
        ⟨⟨false, false, Health.FAIL, Role.MASTER, Cmd.NONE⟩, csEmpty,
          ⟨⟨5, 10, true, [], 104⟩, StateOffline⟩⟩ = StateOffline :=
  ⟨(not_already_demoted_iff_and_no_retrigger.1 ctxDemoted).mpr ⟨rfl, rfl⟩,
   (not_already_demoted_iff_and_no_retrigger.2 Cmd.NONE csEmpty 5 10 104
     StateOffline).1⟩

/-- C5: from WAIT_FAILOVER_BEGIN with Input (F,F,FAIL,SLAVE,any command),
the patterns of both b2 (priority 0, to WAIT_FAILOVER_END) and b3
(priority 1, to OFFLINE) match, and the priority-1 transition b3 is the one
selected — whatever the cluster topology, hence even when the
slave-eligible guard passes — so the node moves to OFFLINE with no effect
invoked. -/
theorem wfb_banned_failed_slave_priority_one_wins (c : Cmd)
    (cs : ClusterState) (ns : NodeState) :
    b2.Input.matchesInput ⟨false, false, Health.FAIL, Role.SLAVE, c⟩ = true ∧
    b3.Input.matchesInput ⟨false, false, Health.FAIL, Role.SLAVE, c⟩ = true ∧
    selectTransition RedisNodeStateModel StateWaitFailoverBegin
      ⟨⟨false, false, Health.FAIL, Role.SLAVE, c⟩, cs, ns⟩ = some b3 ∧
    advanceState RedisNodeStateModel StateWaitFailoverBegin
      ⟨⟨false, false, Health.FAIL, Role.SLAVE, c⟩, cs, ns⟩ = StateOffline ∧
    firedEffect RedisNodeStateModel StateWaitFailoverBegin
      ⟨⟨false, false, Health.FAIL, Role.SLAVE, c⟩, cs, ns⟩ = none := by
  have hsel : selectTransition RedisNodeStateModel StateWaitFailoverBegin
      ⟨⟨false, false, Health.FAIL, Role.SLAVE, c⟩, cs, ns⟩ = some b3 := by
    cases hg : SlaveAutoFailoverConstraint
        ⟨⟨false, false, Health.FAIL, Role.SLAVE, c⟩, cs, ns⟩ <;>
      simp [selectTransition, pickHighest, RedisNodeStateModel, List.filter,
        a0, a1, a2, a3, a4, b0, b1, b2, b3, c0, c1, d0, d1, d2,
        Pattern.matchesInput, PatField.matches, hg]
  refine ⟨rfl, rfl, hsel, ?_, ?_⟩
  · simp [advanceState, hsel, b3]
  · simp [firedEffect, hsel, b3]

/-- C6: from WAIT_FAILOVER_END, every Input carrying FAILOVER_END_SIGNAL
moves the node to OFFLINE with no effect invoked, whatever the read, write,
health and role fields. -/
theorem wfe_end_signal_always_offline (r w : Bool) (h : Health) (ro : Role)
    (cs : ClusterState) (ns : NodeState) :
    advanceState RedisNodeStateModel StateWaitFailoverEnd
      ⟨⟨r, w, h, ro, Cmd.CMD_FAILOVER_END_SIGNAL⟩, cs, ns⟩ = StateOffline ∧
    firedEffect RedisNodeStateModel StateWaitFailoverEnd
      ⟨⟨r, w, h, ro, Cmd.CMD_FAILOVER_END_SIGNAL⟩, cs, ns⟩ = none := by
  cases r <;> cases w <;> cases h <;> cases ro <;> exact ⟨rfl, rfl⟩

/-- C7: with Input (F,F,FINE,SLAVE,NONE), exactly one registered transition
leaving RUNNING matches — a0 — and the node moves to OFFLINE with no effect
invoked. -/
theorem running_banned_fine_slave_unique_match (cs : ClusterState)
    (ns : NodeState) :
    (RedisNodeStateModel.filter fun t =>
        decide (t.From = StateRunning) &&
          t.Input.matchesInput
            ⟨false, false, Health.FINE, Role.SLAVE, Cmd.NONE⟩) = [a0] ∧
    advanceState RedisNodeStateModel StateRunning
      ⟨⟨false, false, Health.FINE, Role.SLAVE, Cmd.NONE⟩, cs, ns⟩ =
        StateOffline ∧
    firedEffect RedisNodeStateModel StateRunning
      ⟨⟨false, false, Health.FINE, Role.SLAVE, Cmd.NONE⟩, cs, ns⟩ = none :=
  ⟨rfl, rfl, rfl⟩

/-- C8: the ban-read loop attempts every known node address in order and
stops at the first success; when every attempt fails it still attempts all
of them and returns normally (the handler's type has no error channel); and
the committed state of the firing is the same under any ban-world, so an
effect failure can neither block nor reverse the transition nor escape from
Advance. -/
theorem ban_read_peer_best_effort :
    (∀ (ban : Nat → Nat → Bool) (id : Nat) (pre : List NodeState)
        (n : NodeState) (post : List NodeState),
      (∀ m ∈ pre, ban m.Addr id = false) → ban n.Addr id = true →
      disableReadLoop ban id (pre ++ n :: post) =
        (pre ++ [n]).map NodeState.Addr) ∧
    (∀ (ban : Nat → Nat → Bool) (id : Nat) (l : List NodeState),
      (∀ m ∈ l, ban m.Addr id = false) →
      disableReadLoop ban id l = l.map NodeState.Addr) ∧
    (∀ (ban : Nat → Nat → Bool) (ts : List Transition) (cur : StateName)
        (ctx : StateContext),
      (advanceWithBanWorld ban ts cur ctx).1 = advanceState ts cur ctx) := by
  refine ⟨?_, ?_, ?_⟩
  · intro ban id pre n post hpre hn
    induction pre with
    | nil => simp [disableReadLoop, hn]
    | cons m rest ih =>
      have hm := hpre m (by simp)
      simp [disableReadLoop, hm, ih (fun x hx => hpre x (by simp [hx]))]
  · intro ban id l hall
    induction l with
    | nil => rfl
    | cons m rest ih =>
      have hm := hall m (by simp)
      simp [disableReadLoop, hm, ih (fun x hx => hall x (by simp [hx]))]
  · intro ban ts cur ctx
    unfold advanceWithBanWorld advanceState
    cases selectTransition ts cur ctx <;> rfl

/-- C8 witness: with a ban oracle succeeding only at the second address the
loop attempts exactly the first two; with an always-failing oracle it
attempts both addresses; and the committed state under the failing oracle
matches the pure advance. -/
theorem ban_read_peer_best_effort_witness :
    disableReadLoop banSecond 1 ([nsMaster] ++ nsSlave :: []) =
      ([nsMaster] ++ [nsSlave]).map NodeState.Addr ∧
    disableReadLoop banNever 1 [nsMaster, nsSlave] =
      [nsMaster, nsSlave].map NodeState.Addr ∧
    (advanceWithBanWorld banNever RedisNodeStateModel StateRunning
        ctxAutoNone).1 =
      advanceState RedisNodeStateModel StateRunning ctxAutoNone :=
  ⟨ban_read_peer_best_effort.1 banSecond 1 [nsMaster] nsSlave []
      (by decide) (by decide),
   ban_read_peer_best_effort.2.1 banNever 1 [nsMaster, nsSlave] (by decide),
   ban_read_peer_best_effort.2.2 banNever RedisNodeStateModel StateRunning
     ctxAutoNone⟩

/-- C9: the promote-replica handler with no replication-offset-maximal
sibling (the query errs) is not a failure: it dispatches an asynchronous
re-drive of the node's FSM with FAILOVER_END_SIGNAL; with a candidate it
dispatches the asynchronous failover task carrying the failing node's id
and the candidate's id, consuming no result. Transitions a4 and b1 are the
ones carrying this effect. -/
theorem promote_replica_branches (ctx : StateContext) :
    MasterFailoverHandler none ctx =
      MasterAction.asyncAdvanceFSM ctx.nodeState.Id
        Cmd.CMD_FAILOVER_END_SIGNAL ∧
    (∀ m : Nat, MasterFailoverHandler (some m) ctx =
      MasterAction.asyncRunFailoverTask ctx.nodeState.Id m) ∧
    a4.Apply = some Effect.masterFailover ∧
    b1.Apply = some Effect.masterFailover :=
  ⟨rfl, fun _ => rfl, rfl, rfl⟩

/-- C10: the slave-eligible guard gives the same verdict on any two contexts
identical except for the cluster-wide auto-failover flag; consequently with
the flag disabled the slave path still fires: from RUNNING (transition a3)
and from WAIT_FAILOVER_BEGIN (transition b2) an eligible failed slave moves
to WAIT_FAILOVER_END with the ban-read effect invoked. -/
theorem slave_guard_ignores_autofailover_flag :
    (∀ (rss : List ReplicaSet) (nss : List NodeState) (ns : NodeState)
        (i : Input) (b b' : Bool),
      SlaveAutoFailoverConstraint ⟨i, ⟨rss, nss, b⟩, ns⟩ =
        SlaveAutoFailoverConstraint ⟨i, ⟨rss, nss, b'⟩, ns⟩) ∧
    (∀ (rss : List ReplicaSet) (nss : List NodeState) (ns : NodeState)
        (w : Bool) (c : Cmd),
      SlaveAutoFailoverConstraint
          ⟨⟨true, w, Health.FAIL, Role.SLAVE, c⟩, ⟨rss, nss, false⟩, ns⟩ =
        true →
      advanceState RedisNodeStateModel StateRunning
          ⟨⟨true, w, Health.FAIL, Role.SLAVE, c⟩, ⟨rss, nss, false⟩, ns⟩ =
        StateWaitFailoverEnd ∧
      firedEffect RedisNodeStateModel StateRunning
          ⟨⟨true, w, Health.FAIL, Role.SLAVE, c⟩, ⟨rss, nss, false⟩, ns⟩ =
        some Effect.slaveFailover) ∧
    (∀ (rss : List ReplicaSet) (nss : List NodeState) (ns : NodeState)
        (w : Bool) (c : Cmd),
      SlaveAutoFailoverConstraint
          ⟨⟨true, w, Health.FAIL, Role.SLAVE, c⟩, ⟨rss, nss, false⟩, ns⟩ =
        true →
      advanceState RedisNodeStateModel StateWaitFailoverBegin
          ⟨⟨true, w, Health.FAIL, Role.SLAVE, c⟩, ⟨rss, nss, false⟩, ns⟩ =
        StateWaitFailoverEnd ∧
      firedEffect RedisNodeStateModel StateWaitFailoverBegin
          ⟨⟨true, w, Health.FAIL, Role.SLAVE, c⟩, ⟨rss, nss, false⟩, ns⟩ =
        some Effect.slaveFailover) := by
  refine ⟨fun rss nss ns i b b' => rfl, ?_, ?_⟩ <;>
  · intro rss nss ns w c hg
    constructor <;> cases w <;>
      simp [advanceState, firedEffect, selectTransition, pickHighest,
        RedisNodeStateModel, List.filter, a0, a1, a2, a3, a4, b0, b1, b2, b3,
        c0, c1, d0, d1, d2, Pattern.matchesInput, PatField.matches, hg]

/-- C10 witness: with the flag disabled and an eligible two-node region, the
failed fixture slave advances to WAIT_FAILOVER_END from both RUNNING and
WAIT_FAILOVER_BEGIN, invoking the ban-read effect. -/
theorem slave_guard_ignores_autofailover_flag_witness :
    (advanceState RedisNodeStateModel StateRunning
        ⟨⟨true, true, Health.FAIL, Role.SLAVE, Cmd.NONE⟩,
          ⟨[rsSlavePair], nssSlavePair, false⟩, nsFailedSlave⟩ =
      StateWaitFailoverEnd ∧
    firedEffect RedisNodeStateModel StateRunning
        ⟨⟨true, true, Health.FAIL, Role.SLAVE, Cmd.NONE⟩,
          ⟨[rsSlavePair], nssSlavePair, false⟩, nsFailedSlave⟩ =
      some Effect.slaveFailover) ∧
    (advanceState RedisNodeStateModel StateWaitFailoverBegin
        ⟨⟨true, true, Health.FAIL, Role.SLAVE, Cmd.NONE⟩,
          ⟨[rsSlavePair], nssSlavePair, false⟩, nsFailedSlave⟩ =
      StateWaitFailoverEnd ∧
    firedEffect RedisNodeStateModel StateWaitFailoverBegin
        ⟨⟨true, true, Health.FAIL, Role.SLAVE, Cmd.NONE⟩,
          ⟨[rsSlavePair], nssSlavePair, false⟩, nsFailedSlave⟩ =
      some Effect.slaveFailover) :=
  ⟨slave_guard_ignores_autofailover_flag.2.1 [rsSlavePair] nssSlavePair
      nsFailedSlave true Cmd.NONE (by decide),
   slave_guard_ignores_autofailover_flag.2.2 [rsSlavePair] nssSlavePair
      nsFailedSlave true Cmd.NONE (by decide)⟩

end CC
